import Mathlib

/-!
# base_client: response handling over an HTTP transport

A shallow embedding of `client.go` (package `base_client`) and the properties
of its four entry points `ExecRequest`, `ExecRequestJSON`, `ExecRequestString`
and `ExecRequestVoid`.

Conventions of the embedding

* a Go `string` / `[]byte` is a list of bytes (`GoString`);
* a Go `error` that may be `nil` is an `Option GoError`, `none` being `nil`;
* an `io.ReadCloser` is a value (`Body`) holding what its future `Read` calls
  will deliver together with counters of the `Read` and `Close` calls already
  made on it; every operation returns the updated value;
* the calls made to the configured error transform are logged, in order, in
  the result of each entry point.
-/

namespace BaseClient

/-! ## Go values -/

/-- A Go string or byte slice: a finite sequence of bytes. -/
abbrev GoString := List UInt8

/-- The bytes (UTF-8) of a string literal of the Go source or of a test input. -/
def str (s : String) : GoString := s.toUTF8.data.toList

/-- Non-nil Go error values. `text` is what `errors.New` builds. `response`,
`client` and `server` are the three error shapes of this package. `foreign` and
`wrap` stand for errors made outside the package (by the transport, a reader,
the JSON decoder or the configured transform), `wrap` being one that wraps
another error. -/
inductive GoError where
  | text (msg : GoString)
  | response (code : Int) (reqID : GoString) (err : GoError)
  | client (err : GoError)
  | server (err : GoError)
  | foreign (id : Nat)
  | wrap (id : Nat) (err : GoError)
  deriving DecidableEq, Repr

/-- Library function `errors.New`. -/
def errorsNew (msg : GoString) : GoError := GoError.text msg

/-- Modelled from the spec: `newResponseError` is declared in a file of the
package that is not among the sources. The spec describes its result as the
value carrying the HTTP status code, the request id and the message. -/
def newResponseError (sc : Int) (rID : GoString) (err : GoError) : GoError :=
  GoError.response sc rID err

/-- Modelled from the spec: `newClientError` is declared in a file of the
package that is not among the sources. The spec describes its result as the
"client error" tag wrapping the status/request-id/message value. -/
def newClientError (err : GoError) : GoError := GoError.client err

/-- Modelled from the spec: `newServerError` is declared in a file of the
package that is not among the sources. The spec describes its result as the
"server error" tag wrapping the status/request-id/message value. -/
def newServerError (err : GoError) : GoError := GoError.server err

/-- The error is, or wraps at any depth, a client-error value. -/
def carriesClientTag : GoError → Bool
  | GoError.text _ => false
  | GoError.response _ _ e => carriesClientTag e
  | GoError.client _ => true
  | GoError.server e => carriesClientTag e
  | GoError.foreign _ => false
  | GoError.wrap _ e => carriesClientTag e

/-- The error is, or wraps at any depth, a server-error value. -/
def carriesServerTag : GoError → Bool
  | GoError.text _ => false
  | GoError.response _ _ e => carriesServerTag e
  | GoError.client e => carriesServerTag e
  | GoError.server _ => true
  | GoError.foreign _ => false
  | GoError.wrap _ e => carriesServerTag e

/-! ## Streams (`io.ReadCloser`) -/

/-- What one `Read` call on a stream delivers: some bytes, or an error other
than `io.EOF`. -/
inductive ReadStep where
  | data (chunk : List UInt8)
  | fail (err : GoError)
  deriving DecidableEq, Repr

/-- An `io.ReadCloser`. `script` lists what the coming `Read` calls deliver; when
it is exhausted `Read` reports `io.EOF`. `reads` and `closes` count the `Read`
and `Close` calls made on the stream so far. -/
structure Body where
  script : List ReadStep
  reads : Nat
  closes : Nat
  deriving DecidableEq, Repr

/-- Method `Close` of the stream. -/
def Body.Close (b : Body) : Body := { b with closes := b.closes + 1 }

/-- The stream is at its end: the next `Read` reports `io.EOF`. -/
def Body.atEOF (b : Body) : Bool := b.script.isEmpty

/-- The `Read` loop of library function `io.ReadAll` over the pending steps:
the bytes gathered, the error that stopped the loop (`none` when it stopped on
`io.EOF`), the steps left unread and the number of `Read` calls made. -/
def readAllSteps : List ReadStep → List UInt8 × Option GoError × List ReadStep × Nat
  | [] => ([], none, [], 1)
  | ReadStep.data chunk :: rest =>
    match readAllSteps rest with
    | (bytes, err, left, n) => (chunk ++ bytes, err, left, n + 1)
  | ReadStep.fail err :: rest => ([], some err, rest, 1)

/-- Library function `io.ReadAll`: reads until `io.EOF` or the first error. -/
def ReadAll (rc : Body) : List UInt8 × Option GoError × Body :=
  match readAllSteps rc.script with
  | (bytes, err, left, n) => (bytes, err, { rc with script := left, reads := rc.reads + n })

/-- Function `readVoid` of client.go. -/
def readVoid (rc : Body) : Option GoError × Body :=
  match ReadAll rc with
  | (_, some err, rc1) => (some err, rc1)
  | (_, none, rc1) => (none, rc1)

/-- Function `readString` of client.go. -/
def readString (rc : Body) : GoString × Option GoError × Body :=
  match ReadAll rc with
  | (_, some err, rc1) => ([], some err, rc1)
  | (b, none, rc1) => (b, none, rc1)

/-- Library type `json.Decoder`, as far as client.go depends on it. Given the
current target value and the pending steps of the stream, `run` tells how many
`Read` calls `Decode` makes, the target value it leaves and the error it
returns. -/
structure JSONDecoder (V : Type) where
  run : V → List ReadStep → Nat × V × Option GoError

/-- Library call `json.NewDecoder(rc).Decode(v)`. -/
def Decode {V : Type} (jd : JSONDecoder V) (rc : Body) (v : V) : V × Option GoError × Body :=
  match jd.run v rc.script with
  | (n, v1, err) => (v1, err, { rc with script := rc.script.drop n, reads := rc.reads + n })

/-- Function `readJSON` of client.go. -/
def readJSON {V : Type} (jd : JSONDecoder V) (rc : Body) (v : V) : V × Option GoError × Body :=
  match Decode jd rc v with
  | (v1, some err, rc1) =>
    match readVoid rc1 with
    | (_, rc2) => (v1, some err, rc2)
  | (v1, none, rc1) => (v1, none, rc1)

/-! ## Responses and the transport -/

/-- Library function `validHeaderFieldByte` of net/textproto: the token
characters of RFC 7230. -/
def validHeaderFieldByte (c : UInt8) : Bool :=
  (48 ≤ c && c ≤ 57) || (65 ≤ c && c ≤ 90) || (97 ≤ c && c ≤ 122) ||
  c == 33 || c == 35 || c == 36 || c == 37 || c == 38 || c == 39 || c == 42 ||
  c == 43 || c == 45 || c == 46 || c == 94 || c == 95 || c == 96 || c == 124 ||
  c == 126

/-- The rewriting loop of `CanonicalMIMEHeaderKey`: upper case at the start and
after a hyphen, lower case elsewhere. -/
def canonicalLoop : Bool → List UInt8 → List UInt8
  | _, [] => []
  | upper, c :: cs =>
    let c1 : UInt8 :=
      if upper && 97 ≤ c && c ≤ 122 then c - 32
      else if !upper && 65 ≤ c && c ≤ 90 then c + 32
      else c
    c1 :: canonicalLoop (c1 == 45) cs

/-- Library function `textproto.CanonicalMIMEHeaderKey`: a key holding a byte
that is not a token character is returned unchanged. -/
def CanonicalMIMEHeaderKey (s : GoString) : GoString :=
  if s.all validHeaderFieldByte then canonicalLoop true s else s

/-- Library type `http.Header`: the values recorded for each key. -/
abbrev Header := List (GoString × List GoString)

/-- Library method `http.Header.Get`: the first value recorded for the
canonical form of the key, the empty string when there is none. -/
def Header.Get (h : Header) (key : GoString) : GoString :=
  match h.lookup (CanonicalMIMEHeaderKey key) with
  | some (v :: _) => v
  | _ => []

/-- Library function `http.StatusText`: the standard phrase of a status code,
the empty string for a code it does not know. -/
def StatusText (code : Int) : GoString :=
  match code with
  | 100 => str "Continue"
  | 101 => str "Switching Protocols"
  | 102 => str "Processing"
  | 103 => str "Early Hints"
  | 200 => str "OK"
  | 201 => str "Created"
  | 202 => str "Accepted"
  | 203 => str "Non-Authoritative Information"
  | 204 => str "No Content"
  | 205 => str "Reset Content"
  | 206 => str "Partial Content"
  | 207 => str "Multi-Status"
  | 208 => str "Already Reported"
  | 226 => str "IM Used"
  | 300 => str "Multiple Choices"
  | 301 => str "Moved Permanently"
  | 302 => str "Found"
  | 303 => str "See Other"
  | 304 => str "Not Modified"
  | 305 => str "Use Proxy"
  | 307 => str "Temporary Redirect"
  | 308 => str "Permanent Redirect"
  | 400 => str "Bad Request"
  | 401 => str "Unauthorized"
  | 402 => str "Payment Required"
  | 403 => str "Forbidden"
  | 404 => str "Not Found"
  | 405 => str "Method Not Allowed"
  | 406 => str "Not Acceptable"
  | 407 => str "Proxy Authentication Required"
  | 408 => str "Request Timeout"
  | 409 => str "Conflict"
  | 410 => str "Gone"
  | 411 => str "Length Required"
  | 412 => str "Precondition Failed"
  | 413 => str "Request Entity Too Large"
  | 414 => str "Request URI Too Long"
  | 415 => str "Unsupported Media Type"
  | 416 => str "Requested Range Not Satisfiable"
  | 417 => str "Expectation Failed"
  | 418 => str "I\x27m a teapot"
  | 421 => str "Misdirected Request"
  | 422 => str "Unprocessable Entity"
  | 423 => str "Locked"
  | 424 => str "Failed Dependency"
  | 425 => str "Too Early"
  | 426 => str "Upgrade Required"
  | 428 => str "Precondition Required"
  | 429 => str "Too Many Requests"
  | 431 => str "Request Header Fields Too Large"
  | 451 => str "Unavailable For Legal Reasons"
  | 500 => str "Internal Server Error"
  | 501 => str "Not Implemented"
  | 502 => str "Bad Gateway"
  | 503 => str "Service Unavailable"
  | 504 => str "Gateway Timeout"
  | 505 => str "HTTP Version Not Supported"
  | 506 => str "Variant Also Negotiates"
  | 507 => str "Insufficient Storage"
  | 508 => str "Loop Detected"
  | 510 => str "Not Extended"
  | 511 => str "Network Authentication Required"
  | _ => []

/-- Library type `http.Response`, the four fields client.go reads. `Status` is
the status text the transport recorded (net/http records the code followed by
the phrase, such as "200 OK"); `Body` is never nil on a response returned
without error. -/
structure Response where
  Status : GoString
  StatusCode : Int
  Header : Header
  Body : Body
  deriving DecidableEq, Repr

/-- The pair returned by `HTTPClient.Do`, under the contract of `http.Client.Do`
that the interface repeats: either a non-nil error (a response that comes with
it is ignored by the caller), or a nil error with a response whose body is not
nil. -/
inductive DoResult where
  | failure (resp : Option Response) (err : GoError)
  | response (resp : Response)
  deriving DecidableEq, Repr

/-- Struct `Client` of client.go. `Req` is the type of prepared requests, which
the package never inspects. The error transform may return nil (`none`). -/
structure Client (Req : Type) where
  httpClient : Req → DoResult
  cErrorFunc : Int → GoError → Option GoError
  headerReqID : GoString

/-- Function `New` of client.go. -/
def New {Req : Type} (httpClient : Req → DoResult)
    (cErrorFunc : Int → GoError → Option GoError) (headerReqID : GoString) : Client Req :=
  { httpClient := httpClient, cErrorFunc := cErrorFunc, headerReqID := headerReqID }

/-! ## The entry points -/

/-- The error value `getError` builds before it hands it to the transform: the
response error, wrapped by the two successive `if` statements. -/
def classified (sc : Int) (rID msg : GoString) : GoError :=
  let err := newResponseError sc rID (errorsNew msg)
  let err := if sc < 500 then newClientError err else err
  let err := if sc ≥ 500 then newServerError err else err
  err

/-- Method `Client.getError` of client.go: the error returned, and the log of
the one call made to the transform (its two arguments). -/
def getError {Req : Type} (c : Client Req) (sc : Int) (rID msg : GoString) :
    Option GoError × List (Int × GoError) :=
  (c.cErrorFunc sc (classified sc rID msg), [(sc, classified sc rID msg)])

/-- What a call of `ExecRequest` leaves behind: the two returned values
(`stream`, `err`), the state of the response body when the call returns
(`respBody`, `none` when the transport produced no response) and the calls made
to the error transform, in order. -/
structure ExecResult where
  stream : Option Body
  err : Option GoError
  respBody : Option Body
  calls : List (Int × GoError)
  deriving DecidableEq, Repr

/-- Method `Client.ExecRequest` of client.go. -/
def ExecRequest {Req : Type} (c : Client Req) (req : Req) : ExecResult :=
  match c.httpClient req with
  | DoResult.failure resp err =>
    { stream := none, err := some err, respBody := resp.map Response.Body, calls := [] }
  | DoResult.response resp =>
    if resp.StatusCode ≥ 400 then
      match readString resp.Body with
      | (errMsg, rerr, body1) =>
        let errMsg := if rerr.isSome || errMsg == [] then resp.Status else errMsg
        match getError c resp.StatusCode (resp.Header.Get c.headerReqID) errMsg with
        | (e, calls) =>
          { stream := none, err := e, respBody := some body1.Close, calls := calls }
    else
      { stream := some resp.Body, err := none, respBody := some resp.Body, calls := [] }

/-- How a call of one of the three helpers ends: it returns, or it panics on the
method call `body.Close` of a nil stream. -/
inductive Outcome (α : Type) where
  | returned (a : α)
  | panicked
  deriving DecidableEq, Repr

/-- What a returning helper leaves behind: its result value (the JSON target,
the string, or nothing), its error, the state of the response body and the
calls made to the error transform. -/
structure CallResult (α : Type) where
  value : α
  err : Option GoError
  respBody : Option Body
  calls : List (Int × GoError)
  deriving DecidableEq, Repr

/-- Method `Client.ExecRequestJSON` of client.go; `v` is the target. -/
def ExecRequestJSON {Req V : Type} (c : Client Req) (jd : JSONDecoder V) (req : Req) (v : V) :
    Outcome (CallResult V) :=
  let r := ExecRequest c req
  match r.err with
  | some err => Outcome.returned { value := v, err := some err, respBody := r.respBody, calls := r.calls }
  | none =>
    match r.stream with
    | none => Outcome.panicked
    | some body =>
      match readJSON jd body v with
      | (v1, some err, body1) =>
        Outcome.returned { value := v1, err := some err, respBody := some body1.Close, calls := r.calls }
      | (v1, none, body1) =>
        Outcome.returned { value := v1, err := none, respBody := some body1.Close, calls := r.calls }

/-- Method `Client.ExecRequestString` of client.go. -/
def ExecRequestString {Req : Type} (c : Client Req) (req : Req) : Outcome (CallResult GoString) :=
  let r := ExecRequest c req
  match r.err with
  | some err => Outcome.returned { value := [], err := some err, respBody := r.respBody, calls := r.calls }
  | none =>
    match r.stream with
    | none => Outcome.panicked
    | some body =>
      match readString body with
      | (s, err, body1) =>
        Outcome.returned { value := s, err := err, respBody := some body1.Close, calls := r.calls }

/-- Method `Client.ExecRequestVoid` of client.go. -/
def ExecRequestVoid {Req : Type} (c : Client Req) (req : Req) : Outcome (CallResult Unit) :=
  let r := ExecRequest c req
  match r.err with
  | some err => Outcome.returned { value := (), err := some err, respBody := r.respBody, calls := r.calls }
  | none =>
    match r.stream with
    | none => Outcome.panicked
    | some body =>
      match readVoid body with
      | (_, body1) =>
        Outcome.returned { value := (), err := none, respBody := some body1.Close, calls := r.calls }

/-! ## Concrete inputs -/

/-- A fresh stream delivering the given bytes in one `Read`, then `io.EOF`. -/
def bodyOf (bytes : List UInt8) : Body :=
  { script := [ReadStep.data bytes], reads := 0, closes := 0 }

/-- A fresh stream that is at `io.EOF` from the start. -/
def emptyBody : Body := { script := [], reads := 0, closes := 0 }

/-- The transform that returns the classified error as it is. -/
def keepError : Int → GoError → Option GoError := fun _ e => some e

/-- A transport that answers every request with the same result. -/
def constTransport (r : DoResult) : Unit → DoResult := fun _ => r

/-- Scenario: status 404, header X-Request-Id: abc123, body "not found". -/
def resp404 : Response :=
  { Status := str "404 Not Found", StatusCode := 404,
    Header := [(str "X-Request-Id", [str "abc123"])], Body := bodyOf (str "not found") }

/-- Scenario: status 503 with an empty body, as net/http reports it. -/
def resp503 : Response :=
  { Status := str "503 Service Unavailable", StatusCode := 503, Header := [], Body := emptyBody }

/-- Scenario: status 200 with the body {"malformed" -/
def resp200 : Response :=
  { Status := str "200 OK", StatusCode := 200, Header := [],
    Body := bodyOf (str "\x7b\"malformed\"") }

/-- Scenario: status 500 with a body whose first `Read` fails and whose second
`Read` would deliver one byte. -/
def resp500 : Response :=
  { Status := str "500 Internal Server Error", StatusCode := 500, Header := [],
    Body := { script := [ReadStep.fail (GoError.foreign 7), ReadStep.data (str "x")],
              reads := 0, closes := 0 } }

/-- Scenario: status 200 with a body whose only `Read` fails. -/
def resp200Broken : Response :=
  { Status := str "200 OK", StatusCode := 200, Header := [],
    Body := { script := [ReadStep.fail (GoError.foreign 7)], reads := 0, closes := 0 } }

/-- A stand-in for the JSON decoder on concrete inputs: it accepts a first chunk
that ends in a closing brace; on any other chunk it reads on to the end of the
stream and reports error 1 (unexpected end of input); a failing `Read` is
reported as it is. -/
def braceDecoder : JSONDecoder Nat :=
  { run := fun v steps =>
      match steps with
      | [] => (1, v, some (GoError.foreign 1))
      | ReadStep.fail err :: _ => (1, v, some err)
      | ReadStep.data chunk :: _ =>
        if chunk.getLast? = some 125 then (1, v + 1, none) else (2, v, some (GoError.foreign 1)) }

/-- The step of a stream delivers bytes (it is not a failing `Read`). -/
def ReadStep.isData : ReadStep → Bool
  | ReadStep.data _ => true
  | ReadStep.fail _ => false

/-- The message `ExecRequest` gives to `getError` for a response with status
code >= 400: the text of the body, or the `Status` field when reading the body
failed or gave the empty string. -/
def errorMessage (resp : Response) : GoString :=
  if (readString resp.Body).2.1.isSome || (readString resp.Body).1 == [] then resp.Status
  else (readString resp.Body).1

/-- The transform that turns every classified error into nil. -/
def dropError : Int → GoError → Option GoError := fun _ _ => none

/-! ## Lemmas on the stream operations -/

theorem readAllSteps_left (steps : List ReadStep) :
    (readAllSteps steps).2.2.1 = (steps.dropWhile ReadStep.isData).drop 1 := by
  induction steps with
  | nil => rfl
  | cons s rest ih =>
    cases s with
    | data chunk => simpa [readAllSteps, ReadStep.isData] using ih
    | fail err => simp [readAllSteps, ReadStep.isData]

theorem ReadAll_closes (rc : Body) : (ReadAll rc).2.2.closes = rc.closes := rfl

theorem ReadAll_script (rc : Body) :
    (ReadAll rc).2.2.script = (rc.script.dropWhile ReadStep.isData).drop 1 :=
  readAllSteps_left rc.script

theorem readString_body (rc : Body) : (readString rc).2.2 = (ReadAll rc).2.2 := by
  unfold readString
  split <;> simp_all

theorem readString_err (rc : Body) : (readString rc).2.1 = (ReadAll rc).2.1 := by
  unfold readString
  split <;> simp_all

theorem readString_value (rc : Body) :
    (readString rc).1 = if (ReadAll rc).2.1 = none then (ReadAll rc).1 else [] := by
  unfold readString
  split <;> simp_all

theorem readVoid_body (rc : Body) : (readVoid rc).2 = (ReadAll rc).2.2 := by
  unfold readVoid
  split <;> simp_all

theorem Decode_closes {V : Type} (jd : JSONDecoder V) (rc : Body) (v : V) :
    (Decode jd rc v).2.2.closes = rc.closes := rfl

theorem readJSON_closes {V : Type} (jd : JSONDecoder V) (rc : Body) (v : V) :
    (readJSON jd rc v).2.2.closes = rc.closes := by
  unfold readJSON
  split
  · next v1 err rc1 h =>
    have h1 : (Decode jd rc v).2.2 = rc1 := by rw [h]
    simp only [readVoid_body, ReadAll_closes, ← h1, Decode_closes]
  · next v1 rc1 h =>
    have h1 : (Decode jd rc v).2.2 = rc1 := by rw [h]
    simp only [← h1, Decode_closes]

/-! ## Lemmas on `ExecRequest`, one for each path -/

theorem ExecRequest_failure {Req : Type} (c : Client Req) (req : Req) (resp : Option Response)
    (err : GoError) (hdo : c.httpClient req = DoResult.failure resp err) :
    ExecRequest c req =
      { stream := none, err := some err, respBody := resp.map Response.Body, calls := [] } := by
  simp [ExecRequest, hdo]

theorem ExecRequest_success {Req : Type} (c : Client Req) (req : Req) (resp : Response)
    (hdo : c.httpClient req = DoResult.response resp) (hlt : resp.StatusCode < 400) :
    ExecRequest c req =
      { stream := some resp.Body, err := none, respBody := some resp.Body, calls := [] } := by
  have h : ¬ (400 ≤ resp.StatusCode) := not_le.mpr hlt
  simp [ExecRequest, hdo, h]

theorem ExecRequest_status {Req : Type} (c : Client Req) (req : Req) (resp : Response)
    (hdo : c.httpClient req = DoResult.response resp) (hge : 400 ≤ resp.StatusCode) :
    ExecRequest c req =
      { stream := none,
        err := c.cErrorFunc resp.StatusCode
          (classified resp.StatusCode (resp.Header.Get c.headerReqID) (errorMessage resp)),
        respBody := some (ReadAll resp.Body).2.2.Close,
        calls := [(resp.StatusCode,
          classified resp.StatusCode (resp.Header.Get c.headerReqID) (errorMessage resp))] } := by
  simp [ExecRequest, hdo, hge, getError, errorMessage, readString_body]

theorem errorMessage_of_text (resp : Response)
    (herr : (ReadAll resp.Body).2.1 = none) (hne : (ReadAll resp.Body).1 ≠ []) :
    errorMessage resp = (ReadAll resp.Body).1 := by
  simp [errorMessage, readString_err, readString_value, herr, hne]

theorem errorMessage_of_fallback (resp : Response)
    (h : (ReadAll resp.Body).2.1 ≠ none ∨ (ReadAll resp.Body).1 = []) :
    errorMessage resp = resp.Status := by
  unfold errorMessage
  rw [readString_err, readString_value]
  rcases h with h | h
  · cases hr : (ReadAll resp.Body).2.1 with
    | none => exact absurd hr h
    | some e => simp
  · simp [h]

theorem classified_client (sc : Int) (rID msg : GoString) (h : sc < 500) :
    classified sc rID msg = GoError.client (GoError.response sc rID (GoError.text msg)) := by
  have h2 : ¬ (500 ≤ sc) := not_le.mpr h
  simp [classified, newResponseError, newClientError, errorsNew, h, h2]

theorem classified_server (sc : Int) (rID msg : GoString) (h : 500 ≤ sc) :
    classified sc rID msg = GoError.server (GoError.response sc rID (GoError.text msg)) := by
  have h2 : ¬ (sc < 500) := not_lt.mpr h
  simp [classified, newResponseError, newServerError, errorsNew, h, h2]

theorem Header_Get_absent (h : Header) (key : GoString)
    (habs : h.lookup (CanonicalMIMEHeaderKey key) = none) : Header.Get h key = [] := by
  simp [Header.Get, habs]

/-! ## The claims -/

/-- C1. For a response with status code c, the classified error, which is the
value `ExecRequest` hands to the error transform, exists exactly when
c >= 400; it carries the client-error tag when 400 <= c < 500, the server-error
tag when c >= 500, and never both tags. -/
theorem ExecRequest_classified_tags {Req : Type} (c : Client Req) (req : Req) (resp : Response)
    (hdo : c.httpClient req = DoResult.response resp) :
    (400 ≤ resp.StatusCode → ∃ e, (ExecRequest c req).calls = [(resp.StatusCode, e)]) ∧
    ∀ code e, (code, e) ∈ (ExecRequest c req).calls →
      code = resp.StatusCode ∧
      (400 ≤ resp.StatusCode ∧ resp.StatusCode < 500 → carriesClientTag e = true) ∧
      (500 ≤ resp.StatusCode → carriesServerTag e = true) ∧
      ¬ (carriesClientTag e = true ∧ carriesServerTag e = true) := by
  by_cases hge : 400 ≤ resp.StatusCode
  · rw [ExecRequest_status c req resp hdo hge]
    refine ⟨fun _ => ⟨_, rfl⟩, ?_⟩
    intro code e hmem
    simp only [List.mem_singleton, Prod.mk.injEq] at hmem
    obtain ⟨hcode, he⟩ := hmem
    subst hcode
    by_cases h5 : resp.StatusCode < 500
    · rw [classified_client _ _ _ h5] at he
      subst he
      have h6 : ¬ (500 ≤ resp.StatusCode) := not_le.mpr h5
      simp [carriesClientTag, carriesServerTag, h6]
    · have h6 : 500 ≤ resp.StatusCode := not_lt.mp h5
      rw [classified_server _ _ _ h6] at he
      subst he
      simp [carriesClientTag, carriesServerTag, h5]
  · rw [ExecRequest_success c req resp hdo (not_le.mp hge)]
    exact ⟨fun h => absurd h hge, fun code e hmem => by simp at hmem⟩

/-- Witness of C1 on the 404 scenario. -/
theorem ExecRequest_classified_tags_witness :
    (ExecRequest (New (constTransport (DoResult.response resp404)) keepError
        (str "X-Request-Id")) ()).calls =
      [(404, GoError.client (GoError.response 404 (str "abc123") (GoError.text (str "not found"))))] ∧
    ∀ code e, (code, e) ∈ (ExecRequest (New (constTransport (DoResult.response resp404)) keepError
        (str "X-Request-Id")) ()).calls →
      code = resp404.StatusCode ∧
      (400 ≤ resp404.StatusCode ∧ resp404.StatusCode < 500 → carriesClientTag e = true) ∧
      (500 ≤ resp404.StatusCode → carriesServerTag e = true) ∧
      ¬ (carriesClientTag e = true ∧ carriesServerTag e = true) :=
  ⟨by decide,
   (ExecRequest_classified_tags (New (constTransport (DoResult.response resp404)) keepError
      (str "X-Request-Id")) () resp404 rfl).2⟩

/-- C2. For a response with status code c >= 400 whose body reads without error
as a non-empty text b, the error `ExecRequest` returns is the result of the
error transform on (c, e), where e is the response error of status c, of the
request id `Header.Get` finds under the configured header name and of message b,
tagged client error below 500 and server error from 500 on; the transform is
called once, with these arguments; no stream is returned; a header that is
absent gives the empty request id. -/
theorem ExecRequest_status_error {Req : Type} (c : Client Req) (req : Req) (resp : Response)
    (hdo : c.httpClient req = DoResult.response resp) (hge : 400 ≤ resp.StatusCode)
    (hread : (ReadAll resp.Body).2.1 = none) (hne : (ReadAll resp.Body).1 ≠ []) :
    (ExecRequest c req).err =
      c.cErrorFunc resp.StatusCode
        (if resp.StatusCode < 500 then
          GoError.client (GoError.response resp.StatusCode (resp.Header.Get c.headerReqID)
            (GoError.text (ReadAll resp.Body).1))
        else
          GoError.server (GoError.response resp.StatusCode (resp.Header.Get c.headerReqID)
            (GoError.text (ReadAll resp.Body).1))) ∧
    (ExecRequest c req).calls =
      [(resp.StatusCode,
        if resp.StatusCode < 500 then
          GoError.client (GoError.response resp.StatusCode (resp.Header.Get c.headerReqID)
            (GoError.text (ReadAll resp.Body).1))
        else
          GoError.server (GoError.response resp.StatusCode (resp.Header.Get c.headerReqID)
            (GoError.text (ReadAll resp.Body).1)))] ∧
    (ExecRequest c req).stream = none ∧
    (resp.Header.lookup (CanonicalMIMEHeaderKey c.headerReqID) = none →
      resp.Header.Get c.headerReqID = []) := by
  rw [ExecRequest_status c req resp hdo hge, errorMessage_of_text resp hread hne]
  refine ⟨?_, ?_, rfl, Header_Get_absent _ _⟩
  · by_cases h5 : resp.StatusCode < 500
    · simp [h5, classified_client]
    · simp [h5, classified_server _ _ _ (not_lt.mp h5)]
  · by_cases h5 : resp.StatusCode < 500
    · simp [h5, classified_client]
    · simp [h5, classified_server _ _ _ (not_lt.mp h5)]

/-- Witness of C2: status 404, header X-Request-Id: abc123, body "not found" give
the client-error tag, request id "abc123" and message "not found". -/
theorem ExecRequest_status_error_witness :
    (ExecRequest (New (constTransport (DoResult.response resp404)) keepError
        (str "X-Request-Id")) ()).err =
      keepError 404
        (GoError.client (GoError.response 404 (str "abc123") (GoError.text (str "not found")))) ∧
    (ExecRequest (New (constTransport (DoResult.response resp404)) keepError
        (str "X-Request-Id")) ()).calls =
      [(404, GoError.client (GoError.response 404 (str "abc123") (GoError.text (str "not found"))))] :=
  ⟨(ExecRequest_status_error (New (constTransport (DoResult.response resp404)) keepError
      (str "X-Request-Id")) () resp404 rfl (by decide) (by decide) (by decide)).1.trans (by decide),
   (ExecRequest_status_error (New (constTransport (DoResult.response resp404)) keepError
      (str "X-Request-Id")) () resp404 rfl (by decide) (by decide) (by decide)).2.1.trans (by decide)⟩

/-- C3. When the transport returns an error err, `ExecRequest` returns no stream
and err itself, without calling the error transform and without touching a
response body. -/
theorem ExecRequest_transport_error {Req : Type} (c : Client Req) (req : Req)
    (resp : Option Response) (err : GoError)
    (hdo : c.httpClient req = DoResult.failure resp err) :
    (ExecRequest c req).stream = none ∧ (ExecRequest c req).err = some err ∧
    (ExecRequest c req).calls = [] ∧
    (ExecRequest c req).respBody = resp.map Response.Body := by
  rw [ExecRequest_failure c req resp err hdo]
  exact ⟨rfl, rfl, rfl, rfl⟩

/-- Witness of C3: a transport failing with error 9 under a transform that would
turn every error into error 0. -/
theorem ExecRequest_transport_error_witness :
    (ExecRequest (New (constTransport (DoResult.failure none (GoError.foreign 9)))
        (fun _ _ => some (GoError.foreign 0)) (str "X-Request-Id")) ()).stream = none ∧
    (ExecRequest (New (constTransport (DoResult.failure none (GoError.foreign 9)))
        (fun _ _ => some (GoError.foreign 0)) (str "X-Request-Id")) ()).err =
      some (GoError.foreign 9) ∧
    (ExecRequest (New (constTransport (DoResult.failure none (GoError.foreign 9)))
        (fun _ _ => some (GoError.foreign 0)) (str "X-Request-Id")) ()).calls = [] ∧
    (ExecRequest (New (constTransport (DoResult.failure none (GoError.foreign 9)))
        (fun _ _ => some (GoError.foreign 0)) (str "X-Request-Id")) ()).respBody =
      Option.map Response.Body none :=
  ExecRequest_transport_error (New (constTransport (DoResult.failure none (GoError.foreign 9)))
    (fun _ _ => some (GoError.foreign 0)) (str "X-Request-Id")) () none (GoError.foreign 9) rfl

/-- C4. For a response with status code c < 400, `ExecRequest` returns a nil
error and the response body itself, in the state the transport left it (same
pending reads, same counts of `Read` and `Close` calls), and the error
transform is not called. -/
theorem ExecRequest_success_stream {Req : Type} (c : Client Req) (req : Req) (resp : Response)
    (hdo : c.httpClient req = DoResult.response resp) (hlt : resp.StatusCode < 400) :
    (ExecRequest c req).stream = some resp.Body ∧ (ExecRequest c req).err = none ∧
    (ExecRequest c req).calls = [] ∧ (ExecRequest c req).respBody = some resp.Body := by
  rw [ExecRequest_success c req resp hdo hlt]
  exact ⟨rfl, rfl, rfl, rfl⟩

/-- Witness of C4 on the 200 scenario. -/
theorem ExecRequest_success_stream_witness :
    (ExecRequest (New (constTransport (DoResult.response resp200)) keepError
        (str "X-Request-Id")) ()).stream = some resp200.Body ∧
    (ExecRequest (New (constTransport (DoResult.response resp200)) keepError
        (str "X-Request-Id")) ()).err = none ∧
    (ExecRequest (New (constTransport (DoResult.response resp200)) keepError
        (str "X-Request-Id")) ()).calls = [] ∧
    (ExecRequest (New (constTransport (DoResult.response resp200)) keepError
        (str "X-Request-Id")) ()).respBody = some resp200.Body :=
  ExecRequest_success_stream (New (constTransport (DoResult.response resp200)) keepError
    (str "X-Request-Id")) () resp200 rfl (by decide)

theorem readAllSteps_left_nil (steps : List ReadStep)
    (h : (readAllSteps steps).2.1 = none) : (readAllSteps steps).2.2.1 = [] := by
  induction steps with
  | nil => rfl
  | cons s rest ih =>
    cases s with
    | data chunk => simpa [readAllSteps] using ih (by simpa [readAllSteps] using h)
    | fail err => simp [readAllSteps] at h

theorem ReadAll_atEOF (rc : Body) (h : (ReadAll rc).2.1 = none) :
    (ReadAll rc).2.2.atEOF = true := by
  have h1 : (ReadAll rc).2.2.script = [] := readAllSteps_left_nil rc.script h
  simp [Body.atEOF, h1]

theorem ExecRequest_stream_some {Req : Type} (c : Client Req) (req : Req) (body : Body)
    (hs : (ExecRequest c req).stream = some body) :
    (ExecRequest c req).err = none ∧ (ExecRequest c req).calls = [] ∧
    (ExecRequest c req).respBody = some body := by
  cases hdo : c.httpClient req with
  | failure resp err =>
    rw [ExecRequest_failure c req resp err hdo] at hs
    simp at hs
  | response resp =>
    by_cases hge : 400 ≤ resp.StatusCode
    · rw [ExecRequest_status c req resp hdo hge] at hs
      simp at hs
    · rw [ExecRequest_success c req resp hdo (not_le.mp hge)] at hs ⊢
      simp only [Option.some.injEq] at hs
      subst hs
      exact ⟨rfl, rfl, rfl⟩

/-- C5 (counterexample). Under a transform that returns nil, the 404 scenario
makes `ExecRequest` return neither a stream nor an error. -/
theorem ExecRequest_neither_stream_nor_error :
    ¬ ((ExecRequest (New (constTransport (DoResult.response resp404)) dropError
          (str "X-Request-Id")) ()).stream ≠ none ↔
        (ExecRequest (New (constTransport (DoResult.response resp404)) dropError
          (str "X-Request-Id")) ()).err = none) := by
  decide

/-- C5 (amended). `ExecRequest` never returns both a stream and an error, and it
returns at least one of the two exactly when the error transform does not
return nil on the classified error it is called with; the transform is not
called on a transport failure or on a status below 400, where exactly one of
the two is therefore always returned. -/
theorem ExecRequest_stream_xor_error {Req : Type} (c : Client Req) (req : Req) :
    ((ExecRequest c req).stream ≠ none → (ExecRequest c req).err = none) ∧
    (((ExecRequest c req).err = none → (ExecRequest c req).stream ≠ none) ↔
      ∀ code e, (code, e) ∈ (ExecRequest c req).calls → c.cErrorFunc code e ≠ none) := by
  cases hdo : c.httpClient req with
  | failure resp err =>
    rw [ExecRequest_failure c req resp err hdo]
    simp
  | response resp =>
    by_cases hge : 400 ≤ resp.StatusCode
    · rw [ExecRequest_status c req resp hdo hge]
      simp
    · rw [ExecRequest_success c req resp hdo (not_le.mp hge)]
      simp

/-- Witness of C5 (amended): under a transform that keeps the classified error,
the 404 scenario returns an error and no stream. -/
theorem ExecRequest_stream_xor_error_witness :
    ((ExecRequest (New (constTransport (DoResult.response resp404)) keepError
        (str "X-Request-Id")) ()).stream ≠ none →
      (ExecRequest (New (constTransport (DoResult.response resp404)) keepError
        (str "X-Request-Id")) ()).err = none) ∧
    ((ExecRequest (New (constTransport (DoResult.response resp404)) keepError
        (str "X-Request-Id")) ()).err = none →
      (ExecRequest (New (constTransport (DoResult.response resp404)) keepError
        (str "X-Request-Id")) ()).stream ≠ none) :=
  ⟨(ExecRequest_stream_xor_error (New (constTransport (DoResult.response resp404)) keepError
      (str "X-Request-Id")) ()).1,
   (ExecRequest_stream_xor_error (New (constTransport (DoResult.response resp404)) keepError
      (str "X-Request-Id")) ()).2.mpr (fun _ _ _ => by simp [New, keepError])⟩

/-- C6 (counterexample). On status 503 with an empty body, reported by the
transport with the status text "503 Service Unavailable", the message of the
classified error is that status text and not the standard phrase of the code,
"Service Unavailable". -/
theorem ExecRequest_message_not_phrase :
    (ReadAll resp503.Body).1 = [] ∧
    (ExecRequest (New (constTransport (DoResult.response resp503)) keepError
        (str "X-Request-Id")) ()).calls =
      [(503, GoError.server (GoError.response 503 []
        (GoError.text (str "503 Service Unavailable"))))] ∧
    StatusText 503 = str "Service Unavailable" ∧
    str "503 Service Unavailable" ≠ StatusText 503 := by
  decide

/-- C6 (amended). For a response with status code >= 400 whose body is empty or
cannot be read, the message of the classified error is the `Status` field of the
response, the status text the transport recorded. -/
theorem ExecRequest_fallback_message {Req : Type} (c : Client Req) (req : Req) (resp : Response)
    (hdo : c.httpClient req = DoResult.response resp) (hge : 400 ≤ resp.StatusCode)
    (hfb : (ReadAll resp.Body).2.1 ≠ none ∨ (ReadAll resp.Body).1 = []) :
    (ExecRequest c req).calls =
      [(resp.StatusCode,
        if resp.StatusCode < 500 then
          GoError.client (GoError.response resp.StatusCode (resp.Header.Get c.headerReqID)
            (GoError.text resp.Status))
        else
          GoError.server (GoError.response resp.StatusCode (resp.Header.Get c.headerReqID)
            (GoError.text resp.Status)))] := by
  rw [ExecRequest_status c req resp hdo hge, errorMessage_of_fallback resp hfb]
  by_cases h5 : resp.StatusCode < 500
  · simp [h5, classified_client]
  · simp [h5, classified_server _ _ _ (not_lt.mp h5)]

/-- Witness of C6 (amended): status 503 with an empty body gives the server-error
tag and the status text of the response as message. -/
theorem ExecRequest_fallback_message_witness :
    (ExecRequest (New (constTransport (DoResult.response resp503)) keepError
        (str "X-Request-Id")) ()).calls =
      [(503, GoError.server (GoError.response 503 []
        (GoError.text (str "503 Service Unavailable"))))] :=
  (ExecRequest_fallback_message (New (constTransport (DoResult.response resp503)) keepError
    (str "X-Request-Id")) () resp503 rfl (by decide) (Or.inr (by decide))).trans (by decide)

/-- C7. When `ExecRequest` returns a stream and a nil error, `ExecRequestVoid`
returns nil, whatever the stream delivers and whether or not draining it fails;
and an error returned by `ExecRequestVoid` is the error `ExecRequest` returned. -/
theorem ExecRequestVoid_error {Req : Type} (c : Client Req) (req : Req) :
    (∀ body, (ExecRequest c req).stream = some body → (ExecRequest c req).err = none →
      ExecRequestVoid c req = Outcome.returned
        { value := (), err := none, respBody := some (ReadAll body).2.2.Close,
          calls := (ExecRequest c req).calls }) ∧
    (∀ r e, ExecRequestVoid c req = Outcome.returned r → r.err = some e →
      (ExecRequest c req).err = some e) := by
  constructor
  · intro body hs he
    simp [ExecRequestVoid, hs, he, readVoid_body]
  · intro r e hr hre
    unfold ExecRequestVoid at hr
    cases he : (ExecRequest c req).err with
    | some err =>
      simp only [he] at hr
      cases hr
      simpa using hre
    | none =>
      simp only [he] at hr
      cases hs : (ExecRequest c req).stream with
      | none => simp [hs] at hr
      | some body =>
        simp only [hs] at hr
        cases hr
        simp at hre

/-- Witness of C7: status 200 with a body whose only `Read` fails. -/
theorem ExecRequestVoid_error_witness :
    ExecRequestVoid (New (constTransport (DoResult.response resp200Broken)) keepError
        (str "X-Request-Id")) () =
      Outcome.returned
        { value := (), err := none,
          respBody := some { script := [], reads := 1, closes := 1 }, calls := [] } :=
  ((ExecRequestVoid_error (New (constTransport (DoResult.response resp200Broken)) keepError
    (str "X-Request-Id")) ()).1 resp200Broken.Body (by decide) (by decide)).trans (by decide)

theorem readJSON_of_error {V : Type} (jd : JSONDecoder V) (rc : Body) (v v1 : V) (d : GoError)
    (rc1 : Body) (hd : Decode jd rc v = (v1, some d, rc1)) :
    readJSON jd rc v = (v1, some d, (ReadAll rc1).2.2) := by
  simp [readJSON, hd, readVoid_body]

theorem ExecRequestJSON_closes {Req V : Type} (c : Client Req) (jd : JSONDecoder V) (req : Req)
    (v : V) (body : Body) (hs : (ExecRequest c req).stream = some body)
    (he : (ExecRequest c req).err = none) :
    ∃ r b, ExecRequestJSON c jd req v = Outcome.returned r ∧ r.respBody = some b ∧
      b.closes = body.closes + 1 := by
  have hc := readJSON_closes jd body v
  unfold ExecRequestJSON
  simp only [he, hs]
  split
  · next v1 err body1 h =>
    have h1 : (readJSON jd body v).2.2 = body1 := by rw [h]
    exact ⟨_, _, rfl, rfl, by simp [Body.Close, ← h1, hc]⟩
  · next v1 body1 h =>
    have h1 : (readJSON jd body v).2.2 = body1 := by rw [h]
    exact ⟨_, _, rfl, rfl, by simp [Body.Close, ← h1, hc]⟩

theorem ExecRequestString_closes {Req : Type} (c : Client Req) (req : Req)
    (body : Body) (hs : (ExecRequest c req).stream = some body)
    (he : (ExecRequest c req).err = none) :
    ∃ r b, ExecRequestString c req = Outcome.returned r ∧ r.respBody = some b ∧
      b.closes = body.closes + 1 := by
  refine ⟨{ value := (readString body).1, err := (readString body).2.1,
            respBody := some (readString body).2.2.Close, calls := (ExecRequest c req).calls },
    (readString body).2.2.Close, ?_, rfl, ?_⟩
  · simp only [ExecRequestString, he, hs]
  · simp [Body.Close, readString_body, ReadAll_closes]

theorem ExecRequestVoid_closes {Req : Type} (c : Client Req) (req : Req)
    (body : Body) (hs : (ExecRequest c req).stream = some body)
    (he : (ExecRequest c req).err = none) :
    ∃ r b, ExecRequestVoid c req = Outcome.returned r ∧ r.respBody = some b ∧
      b.closes = body.closes + 1 := by
  refine ⟨{ value := (), err := none, respBody := some (readVoid body).2.Close,
            calls := (ExecRequest c req).calls }, (readVoid body).2.Close, ?_, rfl, ?_⟩
  · simp only [ExecRequestVoid, he, hs]
  · simp [Body.Close, readVoid_body, ReadAll_closes]

/-- C8. When `ExecRequest` returns a stream and a nil error and decoding that
stream fails with error d, `ExecRequestJSON` runs one `ReadAll` on what the
decoder left of the stream, closes the stream and returns d itself, whatever
that `ReadAll` reported; the error transform is not called. -/
theorem ExecRequestJSON_decode_error {Req V : Type} (c : Client Req) (jd : JSONDecoder V)
    (req : Req) (v v1 : V) (body body1 : Body) (d : GoError)
    (hs : (ExecRequest c req).stream = some body) (he : (ExecRequest c req).err = none)
    (hd : Decode jd body v = (v1, some d, body1)) :
    ExecRequestJSON c jd req v = Outcome.returned
      { value := v1, err := some d, respBody := some (ReadAll body1).2.2.Close, calls := [] } := by
  have hcalls := (ExecRequest_stream_some c req body hs).2.1
  simp [ExecRequestJSON, hs, he, hcalls, readJSON_of_error jd body v v1 d body1 hd]

/-- Witness of C8: status 200 with the body {"malformed" gives the error of the
decoder, not a classified error. -/
theorem ExecRequestJSON_decode_error_witness :
    ExecRequestJSON (New (constTransport (DoResult.response resp200)) keepError
        (str "X-Request-Id")) braceDecoder () 0 =
      Outcome.returned
        { value := 0, err := some (GoError.foreign 1),
          respBody := some { script := [], reads := 3, closes := 1 }, calls := [] } :=
  (ExecRequestJSON_decode_error (New (constTransport (DoResult.response resp200)) keepError
    (str "X-Request-Id")) braceDecoder () 0 0 resp200.Body
    { script := [], reads := 2, closes := 0 } (GoError.foreign 1)
    (by decide) (by decide) (by decide)).trans (by decide)

/-- C9 (counterexample). On status 500 with a body whose first `Read` fails,
`ExecRequest` returns its error while the body still holds an unread chunk: it
has not been read to the end of the stream. -/
theorem ExecRequest_body_not_drained :
    400 ≤ resp500.StatusCode ∧
    (ExecRequest (New (constTransport (DoResult.response resp500)) keepError
        (str "X-Request-Id")) ()).err ≠ none ∧
    (ExecRequest (New (constTransport (DoResult.response resp500)) keepError
        (str "X-Request-Id")) ()).respBody =
      some { script := [ReadStep.data (str "x")], reads := 1, closes := 1 } ∧
    Body.atEOF { script := [ReadStep.data (str "x")], reads := 1, closes := 1 } = false := by
  decide

/-- C9 (amended). For a response with status code >= 400, when `ExecRequest`
returns, no stream is returned, the response body has been closed once by this
call and one `ReadAll` has run on it: every step up to and including the first
failing `Read` is consumed, and the body is at the end of the stream when no
`Read` failed. -/
theorem ExecRequest_body_released {Req : Type} (c : Client Req) (req : Req) (resp : Response)
    (hdo : c.httpClient req = DoResult.response resp) (hge : 400 ≤ resp.StatusCode) :
    (ExecRequest c req).stream = none ∧
    ∃ b, (ExecRequest c req).respBody = some b ∧
      b.closes = resp.Body.closes + 1 ∧
      b.script = (resp.Body.script.dropWhile ReadStep.isData).drop 1 ∧
      ((ReadAll resp.Body).2.1 = none → b.atEOF = true) := by
  rw [ExecRequest_status c req resp hdo hge]
  refine ⟨rfl, _, rfl, rfl, ReadAll_script resp.Body, ?_⟩
  intro h
  exact ReadAll_atEOF resp.Body h

/-- Witness of C9 (amended) on the 404 scenario, whose body reads without
error. -/
theorem ExecRequest_body_released_witness :
    (ExecRequest (New (constTransport (DoResult.response resp404)) keepError
        (str "X-Request-Id")) ()).stream = none ∧
    ∃ b, (ExecRequest (New (constTransport (DoResult.response resp404)) keepError
        (str "X-Request-Id")) ()).respBody = some b ∧
      b.closes = resp404.Body.closes + 1 ∧
      b.script = (resp404.Body.script.dropWhile ReadStep.isData).drop 1 ∧
      ((ReadAll resp404.Body).2.1 = none → b.atEOF = true) :=
  ExecRequest_body_released (New (constTransport (DoResult.response resp404)) keepError
    (str "X-Request-Id")) () resp404 rfl (by decide)

/-- C10. When `ExecRequest` returns a stream and a nil error, each of
`ExecRequestJSON`, `ExecRequestString` and `ExecRequestVoid` returns with that
stream closed exactly once more than it was, whatever the decoder and the
stream do; when `ExecRequest` returns an error, each helper returns with the
response body in the state `ExecRequest` left it (no further close). -/
theorem helpers_close_once {Req V : Type} (c : Client Req) (jd : JSONDecoder V) (req : Req)
    (v : V) :
    (∀ body, (ExecRequest c req).stream = some body → (ExecRequest c req).err = none →
      (∃ r b, ExecRequestJSON c jd req v = Outcome.returned r ∧ r.respBody = some b ∧
        b.closes = body.closes + 1) ∧
      (∃ r b, ExecRequestString c req = Outcome.returned r ∧ r.respBody = some b ∧
        b.closes = body.closes + 1) ∧
      (∃ r b, ExecRequestVoid c req = Outcome.returned r ∧ r.respBody = some b ∧
        b.closes = body.closes + 1)) ∧
    (∀ e, (ExecRequest c req).err = some e →
      (∃ r, ExecRequestJSON c jd req v = Outcome.returned r ∧
        r.respBody = (ExecRequest c req).respBody) ∧
      (∃ r, ExecRequestString c req = Outcome.returned r ∧
        r.respBody = (ExecRequest c req).respBody) ∧
      (∃ r, ExecRequestVoid c req = Outcome.returned r ∧
        r.respBody = (ExecRequest c req).respBody)) := by
  constructor
  · intro body hs he
    exact ⟨ExecRequestJSON_closes c jd req v body hs he, ExecRequestString_closes c req body hs he,
      ExecRequestVoid_closes c req body hs he⟩
  · intro e he
    refine ⟨⟨{ value := v, err := some e, respBody := (ExecRequest c req).respBody,
               calls := (ExecRequest c req).calls }, ?_, rfl⟩,
      ⟨{ value := [], err := some e, respBody := (ExecRequest c req).respBody,
         calls := (ExecRequest c req).calls }, ?_, rfl⟩,
      ⟨{ value := (), err := some e, respBody := (ExecRequest c req).respBody,
         calls := (ExecRequest c req).calls }, ?_, rfl⟩⟩
    · simp only [ExecRequestJSON, he]
    · simp only [ExecRequestString, he]
    · simp only [ExecRequestVoid, he]

/-- Witness of C10: on the 200 scenario, where decoding fails, each helper
returns with the stream closed once. -/
theorem helpers_close_once_witness :
    (∃ r b, ExecRequestJSON (New (constTransport (DoResult.response resp200)) keepError
        (str "X-Request-Id")) braceDecoder () 0 = Outcome.returned r ∧ r.respBody = some b ∧
      b.closes = resp200.Body.closes + 1) ∧
    (∃ r b, ExecRequestString (New (constTransport (DoResult.response resp200)) keepError
        (str "X-Request-Id")) () = Outcome.returned r ∧ r.respBody = some b ∧
      b.closes = resp200.Body.closes + 1) ∧
    (∃ r b, ExecRequestVoid (New (constTransport (DoResult.response resp200)) keepError
        (str "X-Request-Id")) () = Outcome.returned r ∧ r.respBody = some b ∧
      b.closes = resp200.Body.closes + 1) :=
  (helpers_close_once (New (constTransport (DoResult.response resp200)) keepError
    (str "X-Request-Id")) braceDecoder () 0).1 resp200.Body (by decide) (by decide)

end BaseClient
